import Mathlib

/-!
Shallow embedding of the fhbc ban-check relay.

The repository contains three Python files with near-duplicate logic:

* src/app.py        : Flask app, async aiohttp client (check_ban_garena),
                      GET /api/check-ban/<uid> and POST /api/check-ban.
* src/api/index.py  : Flask app, sync requests client (check_ban_garena),
                      GET /check-ban/<uid> and POST /check-ban.
* src/utils.py      : normalizing client (check_ban) against a different
                      upstream, unused by the two apps but part of the repo.

Network I/O is modelled by an explicit HttpOutcome value describing what
the single outbound GET produced; parsed request bodies and upstream JSON
are modelled by a JSON-like value type J.
-/

set_option maxHeartbeats 1000000
set_option linter.unusedVariables false

namespace FFBan

/-- JSON-like Python values that flow through the service: parsed request
bodies, parsed upstream bodies, and the response envelopes. -/
inductive J where
  | null
  | bool (b : Bool)
  | int (n : Int)
  | str (s : String)
  | arr (xs : List J)
  | obj (kvs : List (String × J))

/-- Python truthiness, as used by the checks if data: and
if ban_data.get("error"): in the source. -/
def J.truthy : J → Bool
  | .null => false
  | .bool b => b
  | .int n => n != 0
  | .str s => !s.isEmpty
  | .arr xs => !xs.isEmpty
  | .obj kvs => !kvs.isEmpty

/-- dict.get(k): the value when the key is present, none otherwise.
Parsed JSON objects are modelled as association lists with distinct keys,
so first-match lookup coincides with Python dict lookup. Python raises
AttributeError when .get is applied to a non-dict; the call sites that
can receive a non-dict either model that raise explicitly (respOfBan) or
sit in a try block whose handler produces the same result as the
none branch (src/utils.py check_ban). -/
def J.get : J → String → Option J
  | .obj kvs, k => List.lookup k kvs
  | _, _ => none

/-- dict.get(k, d) with a default. -/
def J.getD (j : J) (k : String) (d : J) : J := (j.get k).getD d

/-- The codepoint ranges accepted by CPython str.isdigit: the Unicode
characters of Numeric_Type Decimal or Digit (the decimal digits of
every script, plus superscript, subscript, circled and fullwidth digit
forms), generated range by range from CPython 3.11 over the whole
codepoint space. -/
def pyDigitRanges : List (Nat × Nat) := [
  (48, 57), (178, 179), (185, 185), (1632, 1641), (1776, 1785), (1984,
  1993), (2406, 2415), (2534, 2543), (2662, 2671), (2790, 2799), (2918,
  2927), (3046, 3055), (3174, 3183), (3302, 3311), (3430, 3439), (3558,
  3567), (3664, 3673), (3792, 3801), (3872, 3881), (4160, 4169), (4240,
  4249), (4969, 4977), (6112, 6121), (6160, 6169), (6470, 6479), (6608,
  6618), (6784, 6793), (6800, 6809), (6992, 7001), (7088, 7097), (7232,
  7241), (7248, 7257), (8304, 8304), (8308, 8313), (8320, 8329), (9312,
  9320), (9332, 9340), (9352, 9360), (9450, 9450), (9461, 9469), (9471,
  9471), (10102, 10110), (10112, 10120), (10122, 10130), (42528, 42537),
  (43216, 43225), (43264, 43273), (43472, 43481), (43504, 43513), (43600,
  43609), (44016, 44025), (65296, 65305), (66720, 66729), (68160, 68163),
  (68912, 68921), (69216, 69224), (69714, 69722), (69734, 69743), (69872,
  69881), (69942, 69951), (70096, 70105), (70384, 70393), (70736, 70745),
  (70864, 70873), (71248, 71257), (71360, 71369), (71472, 71481), (71904,
  71913), (72016, 72025), (72784, 72793), (73040, 73049), (73120, 73129),
  (92768, 92777), (92864, 92873), (93008, 93017), (120782, 120831), (123200,
  123209), (123632, 123641), (125264, 125273), (127232, 127242), (130032,
  130041)]

/-- A character CPython str.isdigit counts as a digit. ASCII 0-9 fall
in the first range; non-ASCII digit codepoints, such as the superscript
two (codepoint 178) or the Arabic-Indic two (codepoint 1634), are also
accepted, while the corresponding strings do not match the pattern that
int() or a [0-9] regex would enforce. -/
def pyCharIsDigit (c : Char) : Bool :=
  pyDigitRanges.any (fun p => decide (p.1 ≤ c.toNat) && decide (c.toNat ≤ p.2))

/-- str.isdigit(): true when the string is nonempty and every character
is a digit in the sense of pyCharIsDigit. -/
def pyIsdigit (s : String) : Bool := !s.isEmpty && s.data.all pyCharIsDigit

/-- str(v) for the values a JSON body can hold: identity on strings,
decimal form (with sign) for integers, True/False for booleans, None for
null. The dict and list forms abbreviate Python repr punctuation; all
that is used downstream is that they keep their surrounding brackets and
hence are never pure digit strings. -/
def pyStr : J → String
  | .str s => s
  | .int n => toString n
  | .bool b => if b then "True" else "False"
  | .null => "None"
  | .arr _ => "[...]"
  | .obj _ => "\x7b...\x7d"

/-- Substring test on character lists, used to state that an error
message carries a status code. -/
def listIsSub (needle : List Char) : List Char → Bool
  | [] => needle.isEmpty
  | c :: t => List.isPrefixOf needle (c :: t) || listIsSub needle t

/-- hay contains needle as a (contiguous) substring. -/
def strContains (hay needle : String) : Bool := listIsSub needle.data hay.data

/-- The Python membership test k in v, which raises TypeError on
non-iterable values (None, bool, int): on dicts it tests keys, on lists
element equality, on strings substring containment. -/
def pyInStr (needle : String) (j : J) : Except String Bool :=
  match j with
  | .obj kvs => .ok (kvs.any (fun kv => kv.1 == needle))
  | .arr xs => .ok (xs.any (fun x => match x with | .str s => s == needle | _ => false))
  | .str s => .ok (listIsSub needle.data s.data)
  | .null => .error "TypeError: argument of type NoneType is not iterable"
  | .bool _ => .error "TypeError: argument of type bool is not iterable"
  | .int _ => .error "TypeError: argument of type int is not iterable"

/-- v[k] with a string key: the value for dicts (KeyError when absent),
TypeError for every other value. -/
def pySubscript (j : J) (k : String) : Except String J :=
  match j with
  | .obj kvs =>
    match List.lookup k kvs with
    | some v => .ok v
    | none => .error ("KeyError: " ++ k)
  | _ => .error "TypeError: string indices must be integers"

/-- Outcome of the single outbound GET, as observed by the calling code:
a transport-level failure (DNS failure, connection refused; raised as
aiohttp.ClientError resp. requests.RequestException), a timeout (raised
as asyncio.TimeoutError resp. requests.Timeout), or an HTTP response
carrying the final status code and a body that parses as JSON (.ok) or
fails to parse (.error). -/
inductive HttpOutcome where
  | transportError (e : String)
  | timeout (e : String)
  | response (status : Nat) (body : Except String J)

/-- src/app.py check_ban_garena: one GET against the Garena endpoint via
aiohttp. A non-200 status yields an error-tagged dict carrying the code
in its message; at status 200 a body that fails to parse raises
(ContentTypeError, a ClientError, or JSONDecodeError, a plain Exception)
and every except branch returns None, as do transport errors and
timeouts. A 200 body that is the JSON literal null parses to Python
None, which the function returns unchanged. The function consults the
network outcome exactly once: no retry. -/
def check_ban_garena_app (uid lang : String) (net : HttpOutcome) : Option J :=
  match net with
  | .response status body =>
    if status != 200 then
      some (.obj [("error", .bool true),
                  ("message", .str ("API returned status " ++ toString status))])
    else
      match body with
      | .ok .null => none
      | .ok j => some j
      | .error _ => none
  | .transportError _ => none
  | .timeout _ => none

/-- src/api/index.py check_ban_garena: the same call via requests. On
failure this variant never returns None: every RequestException (DNS
failure, connection refused, Timeout, and in current requests also
JSONDecodeError from response.json()) becomes an error-tagged dict with
message Request failed: ..., and any other exception becomes an
error-tagged dict with message Unexpected error: .... The only None it
can return is a 200 body that is the JSON literal null, which
response.json() maps to Python None. One call, no retry. -/
def check_ban_garena_index (uid lang : String) (net : HttpOutcome) : Option J :=
  match net with
  | .response status body =>
    if status != 200 then
      some (.obj [("error", .bool true),
                  ("message", .str ("API returned status " ++ toString status))])
    else
      match body with
      | .ok .null => none
      | .ok j => some j
      | .error e => some (.obj [("error", .bool true),
                                ("message", .str ("Request failed: " ++ e))])
  | .transportError e => some (.obj [("error", .bool true),
                                     ("message", .str ("Request failed: " ++ e))])
  | .timeout e => some (.obj [("error", .bool true),
                              ("message", .str ("Request failed: " ++ e))])

/-- src/utils.py check_ban: GET to the thug4ff endpoint, then
raise_for_status (which raises ClientResponseError, a ClientError, for
any status of 400 or more), JSON parse, and normalization under the
upstream convention status == 200 with a truthy data dict. Every
exception path and every no-information path ends in None: transport
error, timeout, bad status, parse failure, status field other than the
integer 200, absent or falsy data, and a truthy non-dict data (whose
.get raises AttributeError, caught by the generic except). A non-dict
top-level body behaves the same way, its .get raising AttributeError. -/
def check_ban (uid : String) (net : HttpOutcome) : Option J :=
  match net with
  | .transportError _ => none
  | .timeout _ => none
  | .response status body =>
    if 400 ≤ status then none
    else
      match body with
      | .error _ => none
      | .ok j =>
        match j.get "status" with
        | some (.int 200) =>
          match j.get "data" with
          | some (.obj kvs) =>
            if kvs.isEmpty then none
            else
              some (.obj [
                ("is_banned", (J.obj kvs).getD "is_banned" (.int 0)),
                ("nickname", (J.obj kvs).getD "nickname" (.str "")),
                ("period", (J.obj kvs).getD "period" (.int 0)),
                ("region", (J.obj kvs).getD "region" (.str "Unknown"))])
          | _ => none
        | _ => none

/-- An HTTP response produced by a handler: status code plus JSON body. -/
structure Resp where
  code : Nat
  body : J

/-- The jsonify envelope the ban handlers build. -/
def envelope (st : String) (msg : J) (data : J) : J :=
  .obj [("status", .str st), ("message", msg), ("data", data)]

/-- The 400 response to an invalid uid. -/
def invalid_uid_resp : Resp :=
  ⟨400, envelope "error" (.str "Invalid UID. Please provide a valid numeric user ID.") .null⟩

/-- The 400 response of the POST handlers to a body without a uid key. -/
def missing_uid_resp : Resp :=
  ⟨400, envelope "error" (.str "Missing \x27uid\x27 in request body") .null⟩

/-- The 503 response to the client returning None. -/
def unreachable_resp : Resp :=
  ⟨503, envelope "error" (.str "Could not retrieve ban information. Please try again later.") .null⟩

/-- Result of a handler try-block body: a response, or an exception that
the surrounding except clause turns into that handler fallback
response. -/
inductive HResult where
  | ok (r : Resp)
  | raises (e : String)

/-- Shared tail of all four ban handlers: None from the client means the
503 response, an error-tagged dict means 400 with the message taken from
the dict (generic fallback when absent), and any other dict is wrapped
as the 200 success payload carrying exactly uid, language,
garena_response and api_source. A non-dict client payload makes
ban_data.get raise AttributeError, escaping to the handler catch-all. -/
def respOfBan (uid : String) (langJ : J) (banData : Option J) : HResult :=
  match banData with
  | none => .ok unreachable_resp
  | some bd =>
    match bd with
    | .obj kvs =>
      if ((J.obj kvs).getD "error" .null).truthy then
        .ok ⟨400, envelope "error" ((J.obj kvs).getD "message" (.str "API returned an error")) .null⟩
      else
        .ok ⟨200, envelope "success" (.str "Ban check completed successfully")
              (.obj [("uid", .str uid), ("language", langJ),
                     ("garena_response", .obj kvs),
                     ("api_source", .str "Official Garena API")])⟩
    | _ => .raises "AttributeError: get"

/-- Body of the GET handlers check_ban_status, identical in src/app.py
and src/api/index.py up to the client function: validate the uid (not
uid or not uid.isdigit()) before any client call, default lang to en,
call the client once, and shape the response. -/
def check_ban_status_body (client : String → String → HttpOutcome → Option J)
    (uid : String) (langArg : Option String) (net : HttpOutcome) : HResult :=
  if uid.isEmpty || !(pyIsdigit uid) then .ok invalid_uid_resp
  else
    let lang := langArg.getD "en"
    respOfBan uid (.str lang) (client uid lang net)

/-- src/app.py check_ban_status: the GET handler with its catch-all
except turning an exception into a 500 response. -/
def check_ban_status_app (uid : String) (langArg : Option String) (net : HttpOutcome) : Resp :=
  match check_ban_status_body check_ban_garena_app uid langArg net with
  | .ok r => r
  | .raises e => ⟨500, envelope "error" (.str ("An unexpected error occurred: " ++ e)) .null⟩

/-- src/api/index.py check_ban_status: the GET handler with its
catch-all except turning an exception into a 500 response. -/
def check_ban_status_index (uid : String) (langArg : Option String) (net : HttpOutcome) : Resp :=
  match check_ban_status_body check_ban_garena_index uid langArg net with
  | .ok r => r
  | .raises e => ⟨500, envelope "error" (.str ("An unexpected error occurred: " ++ e)) .null⟩

/-- Outcome of request.get_json(): a raised parse error (malformed
request body) or the parsed value, with null standing for Python None. -/
inductive GetJsonOutcome where
  | raises (e : String)
  | value (j : J)

/-- Body of the POST handlers check_ban_post, identical in the two apps
up to the client: the missing-uid check (not data or uid not in data)
comes before the str coercion of the uid value and its digit
validation. -/
def check_ban_post_body (client : String → String → HttpOutcome → Option J)
    (bodyOutcome : GetJsonOutcome) (net : HttpOutcome) : HResult :=
  match bodyOutcome with
  | .raises e => .raises e
  | .value data =>
    if !data.truthy then .ok missing_uid_resp
    else
      match pyInStr "uid" data with
      | .error e => .raises e
      | .ok mem =>
        if !mem then .ok missing_uid_resp
        else
          match pySubscript data "uid" with
          | .error e => .raises e
          | .ok uidVal =>
            if !(pyIsdigit (pyStr uidVal)) then .ok invalid_uid_resp
            else
              respOfBan (pyStr uidVal) (data.getD "lang" (.str "en"))
                (client (pyStr uidVal) (pyStr (data.getD "lang" (.str "en"))) net)

/-- src/app.py check_ban_post: the POST handler, whose catch-all maps an
exception e to 400 with message Invalid JSON format: e. -/
def check_ban_post_app (bodyOutcome : GetJsonOutcome) (net : HttpOutcome) : Resp :=
  match check_ban_post_body check_ban_garena_app bodyOutcome net with
  | .ok r => r
  | .raises e => ⟨400, envelope "error" (.str ("Invalid JSON format: " ++ e)) .null⟩

/-- src/api/index.py check_ban_post: the POST handler, whose catch-all
maps an exception e to 400 with message Invalid request: e. -/
def check_ban_post_index (bodyOutcome : GetJsonOutcome) (net : HttpOutcome) : Resp :=
  match check_ban_post_body check_ban_garena_index bodyOutcome net with
  | .ok r => r
  | .raises e => ⟨400, envelope "error" (.str ("Invalid request: " ++ e)) .null⟩

/-- src/app.py health_check: static 200 payload. -/
def health_check_app : Resp :=
  ⟨200, .obj [("status", .str "success"),
              ("message", .str "Free Fire Ban Check API is running"),
              ("version", .str "2.0.0"),
              ("api_source", .str "Official Garena API"),
              ("cors", .str "Manual implementation")]⟩

/-- src/api/index.py health_check: static 200 payload. -/
def health_check_index : Resp :=
  ⟨200, .obj [("status", .str "success"),
              ("message", .str "Free Fire Ban Check API is running"),
              ("version", .str "2.0.0"),
              ("api_source", .str "Official Garena API")]⟩

/-- src/app.py not_found: static 404 payload. -/
def not_found_resp_app : Resp :=
  ⟨404, .obj [("status", .str "error"),
              ("message", .str "Endpoint not found"),
              ("available_endpoints",
                .arr [.str "GET /",
                      .str "GET /api/check-ban/<uid>?lang=<lang>",
                      .str "POST /api/check-ban"])]⟩

/-- src/api/index.py not_found: static 404 payload. -/
def not_found_resp_index : Resp :=
  ⟨404, .obj [("status", .str "error"),
              ("message", .str "Endpoint not found"),
              ("available_endpoints",
                .arr [.str "GET /",
                      .str "GET /check-ban/<uid>?lang=<lang>",
                      .str "POST /check-ban"])]⟩

/-- The shared 500 error handler payload of both apps. -/
def internal_error_resp : Resp :=
  ⟨500, envelope "error" (.str "Internal server error") .null⟩

/-- The body is exactly the three-field envelope: a status field that is
success or error, a message field, and a data field that is an object or
null. -/
def isEnvelope (j : J) : Bool :=
  match j with
  | .obj [("status", .str st), ("message", _), ("data", d)] =>
    (st == "success" || st == "error") &&
      (match d with | .obj _ => true | .null => true | _ => false)
  | _ => false

/-! ## Helper lemmas -/

/-- An invalid uid makes the GET handler body answer 400 uniformly in
the client function. -/
lemma status_body_invalid (client : String → String → HttpOutcome → Option J)
    (uid : String) (langArg : Option String) (net : HttpOutcome)
    (h : (uid.isEmpty || !(pyIsdigit uid)) = true) :
    check_ban_status_body client uid langArg net = .ok invalid_uid_resp := by
  simp [check_ban_status_body, h]

/-- A valid uid makes the GET handler body reach the response-shaping
tail with the defaulted language. -/
lemma status_body_valid (client : String → String → HttpOutcome → Option J)
    (uid : String) (langArg : Option String) (net : HttpOutcome)
    (h : pyIsdigit uid = true) :
    check_ban_status_body client uid langArg net =
      respOfBan uid (.str (langArg.getD "en")) (client uid (langArg.getD "en") net) := by
  have hne : uid.isEmpty = false := by
    cases hb : uid.isEmpty
    · rfl
    · rw [pyIsdigit, hb] at h
      simp at h
  simp [check_ban_status_body, hne, h]

/-! ## C3 -/

/-- C3 counterexample: the uid made of the single superscript-two
character contains no character of 0-9 (so it contains a non-digit
character in the [0-9] sense of the claim and of the spec's uid format),
yet it passes the str.isdigit validation and the handlers do invoke the
Upstream Client for it: the response follows the network outcome (503
from src/app.py on a transport failure, 200 on an upstream success, 400
from src/api/index.py on a transport failure) instead of the invalid-uid
400. -/
theorem c3_counterexample :
    (∃ c ∈ "²".data, c.isDigit = false) ∧
    pyIsdigit "²" = true ∧
    check_ban_status_app "²" none (.transportError "connection refused") = unreachable_resp ∧
    check_ban_status_app "²" none (.response 200 (.ok (.obj [("nickname", .str "x")]))) =
      ⟨200, envelope "success" (.str "Ban check completed successfully")
        (.obj [("uid", .str "²"), ("language", .str "en"),
               ("garena_response", .obj [("nickname", .str "x")]),
               ("api_source", .str "Official Garena API")])⟩ ∧
    check_ban_status_index "²" none (.transportError "connection refused") =
      ⟨400, envelope "error" (.str "Request failed: connection refused") .null⟩ := by
  exact ⟨⟨'²', by decide, by decide⟩, by decide, rfl, rfl, rfl⟩

/-- C3 amended: for every uid that is empty or contains a character that
str.isdigit rejects, the GET handler body answers with the 400
invalid-uid envelope (data null) uniformly in the client function, so no
Upstream Client is consulted, and both GET handler variants follow; the
validation predicate is str.isdigit, which also accepts non-ASCII
Unicode digit characters such as the superscript two, so a uid made
only of such characters is not rejected but forwarded upstream. -/
theorem c3_amended_isdigit_rejection
    (client : String → String → HttpOutcome → Option J)
    (uid : String) (langArg : Option String) (net : HttpOutcome)
    (h : uid = "" ∨ ∃ c ∈ uid.data, pyCharIsDigit c = false) :
    check_ban_status_body client uid langArg net = .ok invalid_uid_resp ∧
    check_ban_status_app uid langArg net = invalid_uid_resp ∧
    check_ban_status_index uid langArg net = invalid_uid_resp := by
  have hcond : (uid.isEmpty || !(pyIsdigit uid)) = true := by
    rcases h with h | ⟨c, hc, hcd⟩
    · subst h; rfl
    · have hall : uid.data.all pyCharIsDigit = false := by
        cases hb : uid.data.all pyCharIsDigit
        · rfl
        · exact absurd (List.all_eq_true.mp hb c hc) (by simp [hcd])
      simp [pyIsdigit, hall]
  have hb : ∀ cl, check_ban_status_body cl uid langArg net = .ok invalid_uid_resp :=
    fun cl => status_body_invalid cl uid langArg net hcond
  refine ⟨hb client, ?_, ?_⟩
  · simp [check_ban_status_app, hb check_ban_garena_app]
  · simp [check_ban_status_index, hb check_ban_garena_index]

/-- C3 amended witness: uid 12a is rejected with the invalid-uid 400 in
both variants, independently of the network. -/
theorem c3_amended_witness :
    ("12a" = "" ∨ ∃ c ∈ "12a".data, pyCharIsDigit c = false) ∧
    check_ban_status_app "12a" none (.timeout "t") = invalid_uid_resp ∧
    check_ban_status_index "12a" none (.timeout "t") = invalid_uid_resp := by
  have h : ("12a" = "" ∨ ∃ c ∈ "12a".data, pyCharIsDigit c = false) :=
    Or.inr ⟨'a', by decide, by decide⟩
  have := c3_amended_isdigit_rejection
    (fun _ _ _ => none) "12a" none (.timeout "t") h
  exact ⟨h, this.2.1, this.2.2⟩

/-! ## C1 -/

/-- C1 counterexample: in src/api/index.py a transport-level failure
does not make check_ban_garena return the unreachable sentinel None (it
returns an error-tagged dict), and the handler answers 400, not 503. -/
theorem c1_counterexample :
    check_ban_garena_index "123456789" "en" (.transportError "connection refused") =
      some (.obj [("error", .bool true),
                  ("message", .str "Request failed: connection refused")]) ∧
    check_ban_status_index "123456789" none (.transportError "connection refused") =
      ⟨400, envelope "error" (.str "Request failed: connection refused") .null⟩ := by
  constructor
  · rfl
  · rfl

/-- C1 amended: on a transport-level failure or timeout, check_ban_garena
in src/app.py and check_ban in src/utils.py return the unreachable
sentinel None, and the src/app.py handler answers 503 with message
Could not retrieve ban information. Please try again later. and data
null; src/api/index.py instead returns an error-tagged dict whose
message is Request failed: ... and its handler answers 400. -/
theorem c1_amended_transport_failure (uid e : String) (langArg : Option String)
    (h : pyIsdigit uid = true) :
    check_ban_garena_app uid (langArg.getD "en") (.transportError e) = none ∧
    check_ban_garena_app uid (langArg.getD "en") (.timeout e) = none ∧
    check_ban_status_app uid langArg (.transportError e) = unreachable_resp ∧
    check_ban_status_app uid langArg (.timeout e) = unreachable_resp ∧
    check_ban uid (.transportError e) = none ∧
    check_ban uid (.timeout e) = none ∧
    check_ban_status_index uid langArg (.transportError e) =
      ⟨400, envelope "error" (.str ("Request failed: " ++ e)) .null⟩ ∧
    check_ban_status_index uid langArg (.timeout e) =
      ⟨400, envelope "error" (.str ("Request failed: " ++ e)) .null⟩ := by
  have happ : ∀ n, check_ban_status_app uid langArg n =
      match respOfBan uid (.str (langArg.getD "en"))
              (check_ban_garena_app uid (langArg.getD "en") n) with
      | .ok r => r
      | .raises e2 => ⟨500, envelope "error" (.str ("An unexpected error occurred: " ++ e2)) .null⟩ := by
    intro n
    rw [check_ban_status_app, status_body_valid _ _ _ _ h]
  have hidx : ∀ n, check_ban_status_index uid langArg n =
      match respOfBan uid (.str (langArg.getD "en"))
              (check_ban_garena_index uid (langArg.getD "en") n) with
      | .ok r => r
      | .raises e2 => ⟨500, envelope "error" (.str ("An unexpected error occurred: " ++ e2)) .null⟩ := by
    intro n
    rw [check_ban_status_index, status_body_valid _ _ _ _ h]
  refine ⟨rfl, rfl, ?_, ?_, rfl, rfl, ?_, ?_⟩
  · rw [happ]; rfl
  · rw [happ]; rfl
  · rw [hidx]
    simp [check_ban_garena_index, respOfBan, J.getD, J.get, J.truthy, List.lookup]
  · rw [hidx]
    simp [check_ban_garena_index, respOfBan, J.getD, J.get, J.truthy, List.lookup]

/-- C1 amended witness at uid 123456789. -/
theorem c1_amended_witness :
    pyIsdigit "123456789" = true ∧
    check_ban_status_app "123456789" none (.transportError "dns failure") = unreachable_resp ∧
    check_ban_status_index "123456789" none (.transportError "dns failure") =
      ⟨400, envelope "error" (.str ("Request failed: " ++ "dns failure")) .null⟩ := by
  have h : pyIsdigit "123456789" = true := by decide
  have hc := c1_amended_transport_failure "123456789" "dns failure" none h
  exact ⟨h, hc.2.2.1, hc.2.2.2.2.2.2.1⟩

/-! ## C2 -/

/-- C2 counterexample: in src/utils.py, a 2xx upstream body whose own
status field is not 200 makes check_ban return None, which is the very
same value the transport-failure path returns: the no-information result
is not distinguishable from the failure sentinel. -/
theorem c2_counterexample :
    check_ban "123" (.response 200 (.ok (.obj [("status", .int 500)]))) = none ∧
    check_ban "123" (.transportError "connection refused") = none := by
  exact ⟨rfl, rfl⟩

/-- C2 amended: when the 2xx body status field is not the integer 200,
or its data field is absent, check_ban returns None, identical to the
transport-failure sentinel; the two cases cannot be told apart from the
returned value. -/
theorem c2_amended_no_info_is_the_sentinel (uid e : String) (j : J)
    (h : j.get "status" ≠ some (.int 200) ∨ j.get "data" = none) :
    check_ban uid (.response 200 (.ok j)) = none ∧
    check_ban uid (.transportError e) = none ∧
    check_ban uid (.response 200 (.ok j)) = check_ban uid (.transportError e) := by
  have hmain : check_ban uid (.response 200 (.ok j)) = none := by
    rw [check_ban]
    simp only [show ¬(400 ≤ 200) by omega, if_false]
    rcases h with h | h
    · cases hs : j.get "status" with
      | none => rfl
      | some v =>
        cases v with
        | int n =>
          by_cases hn : n = 200
          · exact absurd (hs.trans (by rw [hn])) h
          · simp [hs, hn]
        | null => simp [hs]
        | bool b => simp [hs]
        | str s => simp [hs]
        | arr xs => simp [hs]
        | obj kvs => simp [hs]
    · cases hs : j.get "status" with
      | none => rfl
      | some v =>
        cases v with
        | int n =>
          by_cases hn : n = 200
          · subst hn; simp [hs, h]
          · simp [hs, hn]
        | null => simp [hs]
        | bool b => simp [hs]
        | str s => simp [hs]
        | arr xs => simp [hs]
        | obj kvs => simp [hs]
  exact ⟨hmain, rfl, hmain⟩

/-- C2 amended witness: upstream status 500 and absent data both give
None, the transport-failure value. -/
theorem c2_amended_witness :
    ((J.obj [("status", .int 500)]).get "status" ≠ some (.int 200) ∨
      (J.obj [("status", .int 500)]).get "data" = none) ∧
    check_ban "123" (.response 200 (.ok (.obj [("status", .int 500)]))) =
      check_ban "123" (.transportError "x") := by
  have h : ((J.obj [("status", .int 500)]).get "status" ≠ some (.int 200) ∨
      (J.obj [("status", .int 500)]).get "data" = none) := by
    right; rfl
  exact ⟨h, (c2_amended_no_info_is_the_sentinel "123" "x" _ h).2.2⟩

/-! ## C4 -/

/-- C4: a 2xx response whose body fails to parse as JSON is handled by
src/utils.py check_ban exactly like a transport failure (None in both
cases), while each raw-passthrough variant propagates it to the caller
as a generic error response: 503 with the retrieval-failure message in
src/app.py (whose client returns None there too) and 400 with the
interpolated Request failed message in src/api/index.py (whose client
returns an error-tagged dict). -/
theorem c4_parse_failure_generic_error (uid e e2 : String) (langArg : Option String)
    (h : pyIsdigit uid = true) :
    check_ban uid (.response 200 (.error e)) = check_ban uid (.transportError e2) ∧
    check_ban uid (.response 200 (.error e)) = none ∧
    check_ban_garena_app uid (langArg.getD "en") (.response 200 (.error e)) = none ∧
    check_ban_status_app uid langArg (.response 200 (.error e)) = unreachable_resp ∧
    check_ban_status_index uid langArg (.response 200 (.error e)) =
      ⟨400, envelope "error" (.str ("Request failed: " ++ e)) .null⟩ := by
  refine ⟨rfl, rfl, rfl, ?_, ?_⟩
  · rw [check_ban_status_app, status_body_valid _ _ _ _ h]; rfl
  · rw [check_ban_status_index, status_body_valid _ _ _ _ h]
    simp [check_ban_garena_index, respOfBan, J.getD, J.get, J.truthy, List.lookup]

/-- C4 witness at uid 123456789. -/
theorem c4_witness :
    pyIsdigit "123456789" = true ∧
    check_ban_status_app "123456789" none (.response 200 (.error "bad json")) = unreachable_resp ∧
    check_ban_status_index "123456789" none (.response 200 (.error "bad json")) =
      ⟨400, envelope "error" (.str ("Request failed: " ++ "bad json")) .null⟩ := by
  have h : pyIsdigit "123456789" = true := by decide
  have hc := c4_parse_failure_generic_error "123456789" "bad json" "t" none h
  exact ⟨h, hc.2.2.2.1, hc.2.2.2.2⟩

/-! ## C6 -/

/-- C6: any non-2xx final status from the upstream makes both clients
return (from their single, unretried call) the error-tagged dict whose
message carries the numeric status code, and both GET handlers then
answer 400 with exactly that message and data null. -/
theorem c6_non2xx_upstream_status (uid : String) (langArg : Option String)
    (s : Nat) (body : Except String J)
    (hu : pyIsdigit uid = true) (hs : s < 200 ∨ 300 ≤ s) :
    check_ban_garena_app uid (langArg.getD "en") (.response s body) =
      some (.obj [("error", .bool true),
                  ("message", .str ("API returned status " ++ toString s))]) ∧
    check_ban_garena_index uid (langArg.getD "en") (.response s body) =
      some (.obj [("error", .bool true),
                  ("message", .str ("API returned status " ++ toString s))]) ∧
    check_ban_status_app uid langArg (.response s body) =
      ⟨400, envelope "error" (.str ("API returned status " ++ toString s)) .null⟩ ∧
    check_ban_status_index uid langArg (.response s body) =
      ⟨400, envelope "error" (.str ("API returned status " ++ toString s)) .null⟩ := by
  have hne : s ≠ 200 := by omega
  have hbne : (s != 200) = true := by simpa using hne
  have ha : check_ban_garena_app uid (langArg.getD "en") (.response s body) =
      some (.obj [("error", .bool true),
                  ("message", .str ("API returned status " ++ toString s))]) := by
    simp [check_ban_garena_app, hbne]
  have hi : check_ban_garena_index uid (langArg.getD "en") (.response s body) =
      some (.obj [("error", .bool true),
                  ("message", .str ("API returned status " ++ toString s))]) := by
    simp [check_ban_garena_index, hbne]
  refine ⟨ha, hi, ?_, ?_⟩
  · rw [check_ban_status_app, status_body_valid _ _ _ _ hu, ha]
    simp [respOfBan, J.getD, J.get, J.truthy, List.lookup]
  · rw [check_ban_status_index, status_body_valid _ _ _ _ hu, hi]
    simp [respOfBan, J.getD, J.get, J.truthy, List.lookup]

/-- C6 witness: upstream 403 yields a 400 response whose message
contains the string 403. -/
theorem c6_witness :
    pyIsdigit "123456789" = true ∧ (403 < 200 ∨ 300 ≤ 403) ∧
    strContains ("API returned status " ++ toString 403) "403" = true ∧
    check_ban_status_app "123456789" none (.response 403 (.ok .null)) =
      ⟨400, envelope "error" (.str ("API returned status " ++ toString 403)) .null⟩ ∧
    check_ban_status_index "123456789" none (.response 403 (.ok .null)) =
      ⟨400, envelope "error" (.str ("API returned status " ++ toString 403)) .null⟩ := by
  have hu : pyIsdigit "123456789" = true := by decide
  have hs : (403 < 200 ∨ 300 ≤ 403) := by omega
  have hc := c6_non2xx_upstream_status "123456789" none 403 (.ok .null) hu hs
  exact ⟨hu, hs, by decide, hc.2.2.1, hc.2.2.2⟩

/-! ## C7 -/

/-- The GET handler body on a valid uid and a non-error-tagged dict
payload: the 200 success envelope with exactly uid, language,
garena_response and api_source. -/
lemma status_body_success (client : String → String → HttpOutcome → Option J)
    (uid : String) (langArg : Option String) (net : HttpOutcome)
    (kvs : List (String × J))
    (hu : pyIsdigit uid = true)
    (hc : client uid (langArg.getD "en") net = some (.obj kvs))
    (he : ((J.obj kvs).getD "error" .null).truthy = false) :
    check_ban_status_body client uid langArg net =
      .ok ⟨200, envelope "success" (.str "Ban check completed successfully")
            (.obj [("uid", .str uid), ("language", .str (langArg.getD "en")),
                   ("garena_response", .obj kvs),
                   ("api_source", .str "Official Garena API")])⟩ := by
  rw [status_body_valid _ _ _ _ hu, hc, respOfBan, he]
  simp

/-- C7: with an all-digit uid and a successful, non-error-tagged dict
payload from the Upstream Client, each GET handler answers 200 with data
holding exactly uid (the requested uid string), language (the requested
or defaulted lang), garena_response (the upstream payload) and
api_source, Official Garena API. -/
theorem c7_success_response (uid : String) (langArg : Option String) (net : HttpOutcome)
    (kvsA kvsI : List (String × J))
    (hu : pyIsdigit uid = true)
    (hcA : check_ban_garena_app uid (langArg.getD "en") net = some (.obj kvsA))
    (heA : ((J.obj kvsA).getD "error" .null).truthy = false)
    (hcI : check_ban_garena_index uid (langArg.getD "en") net = some (.obj kvsI))
    (heI : ((J.obj kvsI).getD "error" .null).truthy = false) :
    check_ban_status_app uid langArg net =
      ⟨200, envelope "success" (.str "Ban check completed successfully")
        (.obj [("uid", .str uid), ("language", .str (langArg.getD "en")),
               ("garena_response", .obj kvsA),
               ("api_source", .str "Official Garena API")])⟩ ∧
    check_ban_status_index uid langArg net =
      ⟨200, envelope "success" (.str "Ban check completed successfully")
        (.obj [("uid", .str uid), ("language", .str (langArg.getD "en")),
               ("garena_response", .obj kvsI),
               ("api_source", .str "Official Garena API")])⟩ := by
  constructor
  · rw [check_ban_status_app, status_body_success _ _ _ _ _ hu hcA heA]
  · rw [check_ban_status_index, status_body_success _ _ _ _ _ hu hcI heI]

/-- C7 witness: uid 123456789, requested lang id, upstream 200 with a
well-formed dict body. -/
theorem c7_witness :
    pyIsdigit "123456789" = true ∧
    check_ban_garena_app "123456789" "id" (.response 200 (.ok (.obj [("is_banned", .int 0)]))) =
      some (.obj [("is_banned", .int 0)]) ∧
    check_ban_status_app "123456789" (some "id") (.response 200 (.ok (.obj [("is_banned", .int 0)]))) =
      ⟨200, envelope "success" (.str "Ban check completed successfully")
        (.obj [("uid", .str "123456789"), ("language", .str "id"),
               ("garena_response", .obj [("is_banned", .int 0)]),
               ("api_source", .str "Official Garena API")])⟩ ∧
    check_ban_status_index "123456789" (some "id") (.response 200 (.ok (.obj [("is_banned", .int 0)]))) =
      ⟨200, envelope "success" (.str "Ban check completed successfully")
        (.obj [("uid", .str "123456789"), ("language", .str "id"),
               ("garena_response", .obj [("is_banned", .int 0)]),
               ("api_source", .str "Official Garena API")])⟩ := by
  have hu : pyIsdigit "123456789" = true := by decide
  have hc := c7_success_response "123456789" (some "id")
    (.response 200 (.ok (.obj [("is_banned", .int 0)])))
    [("is_banned", .int 0)] [("is_banned", .int 0)] hu rfl rfl rfl rfl
  exact ⟨hu, rfl, hc.1, hc.2⟩

/-! ## C8 -/

/-- C8: in src/utils.py, a non-4xx status whose parsed body carries the
integer status 200 and a present, nonempty dict data makes check_ban
return exactly the four fields is_banned, nickname, period and region,
each the upstream value when the key is present and the defaults 0,
empty string, 0, Unknown otherwise. -/
theorem c8_normalized_fields (uid : String) (st : Nat) (j : J) (kvs : List (String × J))
    (hst : st < 400)
    (hs : j.get "status" = some (.int 200))
    (hd : j.get "data" = some (.obj kvs))
    (hne : kvs ≠ []) :
    check_ban uid (.response st (.ok j)) =
      some (.obj [
        ("is_banned", (List.lookup "is_banned" kvs).getD (.int 0)),
        ("nickname", (List.lookup "nickname" kvs).getD (.str "")),
        ("period", (List.lookup "period" kvs).getD (.int 0)),
        ("region", (List.lookup "region" kvs).getD (.str "Unknown"))]) := by
  rw [check_ban]
  simp only [show ¬(400 ≤ st) by omega, if_false]
  rw [hs]
  simp only [hd]
  have : kvs.isEmpty = false := by
    cases kvs with
    | nil => exact absurd rfl hne
    | cons a t => rfl
  simp [this, J.getD, J.get]

/-- C8 witness: a body with is_banned and region present and nickname
and period absent. -/
theorem c8_witness :
    (200 : Nat) < 400 ∧
    (J.obj [("status", .int 200), ("data", .obj [("is_banned", .int 1), ("region", .str "SG")])]).get "status" = some (.int 200) ∧
    check_ban "1"
      (.response 200 (.ok (.obj [("status", .int 200),
        ("data", .obj [("is_banned", .int 1), ("region", .str "SG")])]))) =
      some (.obj [
        ("is_banned", (List.lookup "is_banned" [("is_banned", J.int 1), ("region", J.str "SG")]).getD (.int 0)),
        ("nickname", (List.lookup "nickname" [("is_banned", J.int 1), ("region", J.str "SG")]).getD (.str "")),
        ("period", (List.lookup "period" [("is_banned", J.int 1), ("region", J.str "SG")]).getD (.int 0)),
        ("region", (List.lookup "region" [("is_banned", J.int 1), ("region", J.str "SG")]).getD (.str "Unknown"))]) := by
  refine ⟨by omega, rfl, ?_⟩
  exact c8_normalized_fields "1" 200 _ _ (by omega) rfl rfl (by simp)

/-! ## C9 -/

/-- C9: in both POST variants, a body that parsed to None, to an empty
dict, or to a dict without a uid key draws the 400 missing-uid response
with data null, whatever the network would have answered and before any
digit validation could run; and a malformed (unparseable) body draws
400 with the parse-error text interpolated into the message. -/
theorem c9_missing_uid_and_malformed_body (bodyJ : J) (e : String) (net : HttpOutcome)
    (h : bodyJ = .null ∨ ∃ kvs, bodyJ = .obj kvs ∧ ∀ kv ∈ kvs, kv.1 ≠ "uid") :
    check_ban_post_app (.value bodyJ) net = missing_uid_resp ∧
    check_ban_post_index (.value bodyJ) net = missing_uid_resp ∧
    check_ban_post_app (.raises e) net =
      ⟨400, envelope "error" (.str ("Invalid JSON format: " ++ e)) .null⟩ ∧
    check_ban_post_index (.raises e) net =
      ⟨400, envelope "error" (.str ("Invalid request: " ++ e)) .null⟩ := by
  have hbody : ∀ cl, check_ban_post_body cl (.value bodyJ) net = .ok missing_uid_resp := by
    intro cl
    rcases h with h | ⟨kvs, h, hk⟩
    · subst h; rfl
    · subst h
      cases kvs with
      | nil => rfl
      | cons a t =>
        have hany : (a :: t).any (fun kv => kv.1 == "uid") = false := by
          cases hb : (a :: t).any (fun kv => kv.1 == "uid")
          · rfl
          · obtain ⟨kv, hm, hbeq⟩ := List.any_eq_true.mp hb
            exact absurd (by simpa using hbeq) (hk kv hm)
        simp [check_ban_post_body, J.truthy, pyInStr, hany]
  refine ⟨?_, ?_, rfl, rfl⟩
  · rw [check_ban_post_app, hbody]
  · rw [check_ban_post_index, hbody]

/-- C9 witness: the empty-dict body and a malformed body. -/
theorem c9_witness :
    ((J.obj []) = J.null ∨ ∃ kvs, (J.obj []) = .obj kvs ∧ ∀ kv ∈ kvs, kv.1 ≠ "uid") ∧
    check_ban_post_app (.value (.obj [])) (.timeout "t") = missing_uid_resp ∧
    check_ban_post_index (.value (.obj [])) (.timeout "t") = missing_uid_resp ∧
    check_ban_post_app (.raises "bad body") (.timeout "t") =
      ⟨400, envelope "error" (.str ("Invalid JSON format: " ++ "bad body")) .null⟩ := by
  have h : ((J.obj []) = J.null ∨ ∃ kvs, (J.obj []) = .obj kvs ∧ ∀ kv ∈ kvs, kv.1 ≠ "uid") :=
    Or.inr ⟨[], rfl, by simp⟩
  have hc := c9_missing_uid_and_malformed_body (.obj []) "bad body" (.timeout "t") h
  exact ⟨h, hc.1, hc.2.1, hc.2.2.1⟩

/-! ## C10 -/

/-- A successful association-list lookup makes the key-membership test
succeed. -/
lemma lookup_any_key (k : String) (v : J) (kvs : List (String × J))
    (h : List.lookup k kvs = some v) : kvs.any (fun kv => kv.1 == k) = true := by
  induction kvs with
  | nil => simp [List.lookup] at h
  | cons a t ih =>
    cases a with
    | mk k1 v1 =>
      rw [List.lookup] at h
      cases hk : (k == k1) with
      | true =>
        have : k1 = k := (beq_iff_eq.mp hk).symm
        simp [List.any, this]
      | false =>
        rw [hk] at h
        simp [List.any, ih h]

/-- C10 counterexample: the POST body binding uid to the superscript-two
string has a uid whose string form contains no character of 0-9, yet it
is not rejected with the invalid-uid 400: str.isdigit accepts the
superscript two, so the uid is forwarded and the response follows the
network outcome (503 on a transport failure, 200 on an upstream
success). -/
theorem c10_counterexample :
    ('²'.isDigit = false) ∧
    pyStr (.str "²") = "²" ∧
    pyIsdigit "²" = true ∧
    check_ban_post_app (.value (.obj [("uid", .str "²")])) (.transportError "x") =
      unreachable_resp ∧
    (check_ban_post_app (.value (.obj [("uid", .str "²")]))
        (.response 200 (.ok (.obj [("nickname", .str "x")])))).code = 200 := by
  exact ⟨by decide, rfl, by decide, rfl, rfl⟩

/-- C10 amended: the POST handler body coerces the uid value with str
before digit validation, and the digit check is str.isdigit: for a dict
body with a uid key, a value whose string form satisfies str.isdigit
flows on to the shared response tail as that string (uniformly in the
client), and any other value draws the 400 invalid-uid response; since
str.isdigit also accepts non-ASCII Unicode digit characters, a string
form made of such characters (for example the superscript two) is
accepted as well, not rejected. -/
theorem c10_post_str_coercion (client : String → String → HttpOutcome → Option J)
    (kvs : List (String × J)) (v : J) (net : HttpOutcome)
    (hv : List.lookup "uid" kvs = some v) :
    (pyIsdigit (pyStr v) = false →
      check_ban_post_body client (.value (.obj kvs)) net = .ok invalid_uid_resp) ∧
    (pyIsdigit (pyStr v) = true →
      check_ban_post_body client (.value (.obj kvs)) net =
        respOfBan (pyStr v) ((J.obj kvs).getD "lang" (.str "en"))
          (client (pyStr v) (pyStr ((J.obj kvs).getD "lang" (.str "en"))) net)) := by
  have hne : kvs.isEmpty = false := by
    cases kvs with
    | nil => simp [List.lookup] at hv
    | cons a t => rfl
  have hany : kvs.any (fun kv => kv.1 == "uid") = true := lookup_any_key _ _ _ hv
  constructor
  · intro hd
    simp [check_ban_post_body, J.truthy, hne, pyInStr, hany, pySubscript, hv, hd]
  · intro hd
    simp [check_ban_post_body, J.truthy, hne, pyInStr, hany, pySubscript, hv, hd]

/-- C10 witness: the JSON integer 123 is accepted and forwarded as the
string 123, while the integer -5 and the boolean true are rejected with
the invalid-uid 400, in the actual POST handlers. -/
theorem c10_witness :
    List.lookup "uid" [("uid", J.int 123)] = some (J.int 123) ∧
    pyIsdigit (pyStr (.int 123)) = true ∧
    check_ban_post_body check_ban_garena_app (.value (.obj [("uid", .int 123)])) (.timeout "t") =
      respOfBan (pyStr (.int 123)) ((J.obj [("uid", J.int 123)]).getD "lang" (.str "en"))
        (check_ban_garena_app (pyStr (.int 123))
          (pyStr ((J.obj [("uid", J.int 123)]).getD "lang" (.str "en"))) (.timeout "t")) ∧
    pyStr (.int 123) = "123" ∧
    pyIsdigit (pyStr (.int (-5))) = false ∧
    check_ban_post_body check_ban_garena_app (.value (.obj [("uid", .int (-5))])) (.timeout "t") =
      .ok invalid_uid_resp ∧
    pyIsdigit (pyStr (.bool true)) = false ∧
    check_ban_post_index (.value (.obj [("uid", .bool true)])) (.timeout "t") = invalid_uid_resp := by
  have h1 : List.lookup "uid" [("uid", J.int 123)] = some (J.int 123) := rfl
  have h2 : pyIsdigit (pyStr (.int 123)) = true := by decide
  have h5 : pyIsdigit (pyStr (.int (-5))) = false := by decide
  have h7 : pyIsdigit (pyStr (.bool true)) = false := by decide
  have hacc := (c10_post_str_coercion check_ban_garena_app [("uid", J.int 123)]
    (.int 123) (.timeout "t") h1).2 h2
  have hrej := (c10_post_str_coercion check_ban_garena_app [("uid", J.int (-5))]
    (.int (-5)) (.timeout "t") rfl).1 h5
  have hrejI := (c10_post_str_coercion check_ban_garena_index [("uid", J.bool true)]
    (.bool true) (.timeout "t") rfl).1 h7
  refine ⟨h1, h2, hacc, by decide, h5, hrej, h7, ?_⟩
  rw [check_ban_post_index, hrejI]

/-! ## C5 -/

/-- The error envelope with null data is a well-formed envelope. -/
lemma isEnvelope_error (m : J) : isEnvelope (envelope "error" m .null) = true := rfl

/-- The success envelope with object data is a well-formed envelope. -/
lemma isEnvelope_success (m : J) (kvs : List (String × J)) :
    isEnvelope (envelope "success" m (.obj kvs)) = true := rfl

/-- The data field of an envelope. -/
lemma envelope_get_data (st : String) (m d : J) : (envelope st m d).get "data" = some d := rfl

/-- Whatever respOfBan answers (when it answers rather than raising) is
an exact three-field envelope with null data off the 200 path. -/
lemma respOfBan_envelope (uid : String) (langJ : J) (bd : Option J) (r : Resp)
    (h : respOfBan uid langJ bd = .ok r) :
    isEnvelope r.body = true ∧ (r.code ≠ 200 → r.body.get "data" = some .null) := by
  cases bd with
  | none =>
    rw [respOfBan] at h
    cases h
    exact ⟨rfl, fun _ => rfl⟩
  | some bdv =>
    cases bdv with
    | obj kvs =>
      rw [respOfBan] at h
      by_cases ht : ((J.obj kvs).getD "error" .null).truthy = true
      · simp only [ht, if_true] at h
        cases h
        exact ⟨isEnvelope_error _, fun _ => envelope_get_data _ _ _⟩
      · simp only [Bool.not_eq_true] at ht
        simp only [ht, Bool.false_eq_true, if_false] at h
        cases h
        exact ⟨isEnvelope_success _ _, fun hc => absurd rfl hc⟩
    | null => exact nomatch h
    | bool b => exact nomatch h
    | int n => exact nomatch h
    | str s => exact nomatch h
    | arr xs => exact nomatch h

/-- Whatever the GET handler body answers without raising is an exact
envelope with null data off the 200 path. -/
lemma status_body_envelope (cl : String → String → HttpOutcome → Option J)
    (uid : String) (langArg : Option String) (net : HttpOutcome) (r : Resp)
    (h : check_ban_status_body cl uid langArg net = .ok r) :
    isEnvelope r.body = true ∧ (r.code ≠ 200 → r.body.get "data" = some .null) := by
  rw [check_ban_status_body] at h
  by_cases hc : (uid.isEmpty || !(pyIsdigit uid)) = true
  · simp only [hc, if_true] at h
    cases h
    exact ⟨rfl, fun _ => rfl⟩
  · simp only [Bool.not_eq_true] at hc
    simp only [hc, Bool.false_eq_true, if_false] at h
    exact respOfBan_envelope _ _ _ _ h

/-- Whatever the POST handler body answers without raising is an exact
envelope with null data off the 200 path. -/
lemma post_body_envelope (cl : String → String → HttpOutcome → Option J)
    (b : GetJsonOutcome) (net : HttpOutcome) (r : Resp)
    (h : check_ban_post_body cl b net = .ok r) :
    isEnvelope r.body = true ∧ (r.code ≠ 200 → r.body.get "data" = some .null) := by
  cases b with
  | raises e => exact absurd h (by rw [check_ban_post_body]; simp)
  | value data =>
    rw [check_ban_post_body] at h
    split at h
    · cases h; exact ⟨rfl, fun _ => rfl⟩
    · split at h
      · exact absurd h (by simp)
      · split at h
        · cases h; exact ⟨rfl, fun _ => rfl⟩
        · split at h
          · exact absurd h (by simp)
          · split at h
            · cases h; exact ⟨rfl, fun _ => rfl⟩
            · exact respOfBan_envelope _ _ _ _ h

/-- C5 counterexample: the health endpoint body and the 404 body are not
the three-field envelope: both lack the data field, and the health body
carries version, api_source (and cors) while the 404 body carries
available_endpoints. -/
theorem c5_counterexample :
    isEnvelope health_check_app.body = false ∧
    health_check_app.body.get "data" = none ∧
    isEnvelope health_check_index.body = false ∧
    health_check_index.body.get "data" = none ∧
    isEnvelope not_found_resp_app.body = false ∧
    not_found_resp_app.body.get "data" = none ∧
    isEnvelope not_found_resp_index.body = false ∧
    not_found_resp_index.body.get "data" = none := by
  exact ⟨rfl, rfl, rfl, rfl, rfl, rfl, rfl, rfl⟩

/-- C5 amended: every response of the four ban-check handlers is the
exact three-field envelope (status success or error, a message field,
and a data field that is an object or null), with data null on every
non-200 response, so no partial result is returned there; the health
endpoint and the 404 handler, however, return bodies that are not this
envelope: they carry status and message but no data field, together
with extra fields. -/
theorem c5_amended_envelope_shape (uid : String) (langArg : Option String)
    (net : HttpOutcome) (b : GetJsonOutcome) :
    (isEnvelope (check_ban_status_app uid langArg net).body = true ∧
      ((check_ban_status_app uid langArg net).code ≠ 200 →
        (check_ban_status_app uid langArg net).body.get "data" = some .null)) ∧
    (isEnvelope (check_ban_status_index uid langArg net).body = true ∧
      ((check_ban_status_index uid langArg net).code ≠ 200 →
        (check_ban_status_index uid langArg net).body.get "data" = some .null)) ∧
    (isEnvelope (check_ban_post_app b net).body = true ∧
      ((check_ban_post_app b net).code ≠ 200 →
        (check_ban_post_app b net).body.get "data" = some .null)) ∧
    (isEnvelope (check_ban_post_index b net).body = true ∧
      ((check_ban_post_index b net).code ≠ 200 →
        (check_ban_post_index b net).body.get "data" = some .null)) ∧
    isEnvelope internal_error_resp.body = true ∧
    isEnvelope health_check_app.body = false ∧
    health_check_app.body.get "data" = none ∧
    isEnvelope health_check_index.body = false ∧
    health_check_index.body.get "data" = none ∧
    isEnvelope not_found_resp_app.body = false ∧
    not_found_resp_app.body.get "data" = none ∧
    isEnvelope not_found_resp_index.body = false ∧
    not_found_resp_index.body.get "data" = none := by
  refine ⟨?_, ?_, ?_, ?_, rfl, rfl, rfl, rfl, rfl, rfl, rfl, rfl, rfl⟩
  · rw [check_ban_status_app]
    cases hb : check_ban_status_body check_ban_garena_app uid langArg net with
    | ok r => exact status_body_envelope _ _ _ _ _ hb
    | raises e => exact ⟨isEnvelope_error _, fun _ => envelope_get_data _ _ _⟩
  · rw [check_ban_status_index]
    cases hb : check_ban_status_body check_ban_garena_index uid langArg net with
    | ok r => exact status_body_envelope _ _ _ _ _ hb
    | raises e => exact ⟨isEnvelope_error _, fun _ => envelope_get_data _ _ _⟩
  · rw [check_ban_post_app]
    cases hb : check_ban_post_body check_ban_garena_app b net with
    | ok r => exact post_body_envelope _ _ _ _ hb
    | raises e => exact ⟨isEnvelope_error _, fun _ => envelope_get_data _ _ _⟩
  · rw [check_ban_post_index]
    cases hb : check_ban_post_body check_ban_garena_index b net with
    | ok r => exact post_body_envelope _ _ _ _ hb
    | raises e => exact ⟨isEnvelope_error _, fun _ => envelope_get_data _ _ _⟩

end FFBan
